import Mathlib

/-!
Verification development for the pNode dashboard aggregation pipeline.

The definitions below are a shallow embedding of the TypeScript source:
  * `Utils`     — src/features/pnodes/services/utils.ts (identical copies of
                  these pure helpers also live in src/lib/pnode-api.ts and
                  src/unnamed/part_004; one embedding serves all of them)
  * `PnodeApi`  — src/lib/pnode-api.ts (client-side pipeline)
  * `ServerApi` — src/server/api/pnodes.ts (server pipeline and staleness gate)
  * `Svc`       — src/unnamed/part_002 (feature-service variant of the merge)
  * `Route`     — src/app/api/pnode-data/route.ts (HTTP query surface)

Modelling conventions:
  * JavaScript numbers are modelled as `ℤ` (integral quantities: credits,
    timestamps, ports) or `ℚ` (quantities that undergo division or decimal
    scaling).  Decimal literals such as `0.33` or `1.5` are modelled by the
    exact rationals `33/100` and `3/2`; no claim below exercises an input
    close enough to a comparison boundary for the float/rational gap
    (< 2⁻⁵⁰ relatively) to matter.
  * Strings are Lean `String`s; `hashPubkey` sums `Char.toNat` codes, which
    agrees with JavaScript `charCodeAt` for all characters in the basic
    multilingual plane (node identities are base58 ASCII).
  * `async` fetchers are factored out: every pipeline function becomes a pure
    function of the adapter responses it consumed, plus an explicit `now`
    parameter wherever the source reads the wall clock.
  * JavaScript truthiness defaults (`x || d`) are modelled by `orElseNat` /
    `orElseStr`, which also replace `0` / `""` by the default.
  * Fallible operations are `Option`-valued; in particular
    `new Date(undefined * 1000).toISOString()` throws a `RangeError`, so
    `ServerApi.mapRpcNodeToPNode` is `Option`-valued and the surrounding
    `try/catch` of `fetchFromRpcAndCache` maps a missing
    `last_seen_timestamp` to the empty result.
  * The per-node `history` arrays (built from `Math.sin`/`Math.cos`) are
    floating-point decoration with no bearing on any claim and are omitted
    from the embedded record.
-/

/-! ## Generic list helpers (JS `Array` semantics) -/

/-- `Array.prototype.map((x, i) => f i x)` starting at index `i₀`. -/
def mapIdxFrom (f : ℕ → α → β) : ℕ → List α → List β
  | _, [] => []
  | i, a :: as => f i a :: mapIdxFrom f (i + 1) as

/-- Insert for a stable descending sort: `x` is placed before the first
element whose key is not strictly greater, so equal keys keep input order. -/
def insertDesc (key : α → ℤ) (x : α) : List α → List α
  | [] => [x]
  | y :: ys => if key x < key y then y :: insertDesc key x ys else x :: y :: ys

/-- Stable descending sort by an integer key, the behaviour of
`arr.sort((a, b) => key(b) - key(a))` (ECMAScript sorts are stable). -/
def sortByDesc (key : α → ℤ) : List α → List α
  | [] => []
  | x :: xs => insertDesc key x (sortByDesc key xs)

/-- Sequencing of a list of optional values: `none` anywhere (a thrown
exception inside `Array.prototype.map`) poisons the whole list. -/
def optionTraverse : List (Option α) → Option (List α)
  | [] => some []
  | none :: _ => none
  | some a :: rest => (optionTraverse rest).map (a :: ·)

/-- `Map.get` for a map built by repeated `set`: the last binding wins. -/
def lookupLast (l : List (String × ℤ)) (k : String) : Option ℤ :=
  l.foldl (fun acc p => if p.1 = k then some p.2 else acc) none

/-- JS `x || d` for numbers: `undefined` and `0` both fall back to `d`. -/
def orElseNat (x : Option ℕ) (d : ℕ) : ℕ :=
  match x with
  | some v => if v = 0 then d else v
  | none => d

/-- JS `x || d` for strings: `undefined` and `""` both fall back to `d`. -/
def orElseStr (x : Option String) (d : String) : String :=
  match x with
  | some v => if v = "" then d else v
  | none => d

/-- JS `s.split(':')[0]`: the characters before the first colon. -/
def hostPart (s : String) : String :=
  String.mk (s.data.takeWhile (· ≠ ':'))

/-- JS `s.split(' ')[0]`: the characters before the first space. -/
def firstWord (s : String) : String :=
  String.mk (s.data.takeWhile (· ≠ ' '))

/-- JS `parseInt(s.split(':')[1])`, `none` when there is no colon or no
leading digits after it (JS would yield `NaN`). -/
def portPart (s : String) : Option ℕ :=
  match s.data.dropWhile (· ≠ ':') with
  | [] => none
  | _ :: rest =>
    let digits := rest.takeWhile (·.isDigit)
    if digits = [] then none
    else some ((String.mk digits).toNat!)

/-- JS array indexing `l[n]`, `undefined` out of bounds. -/
def tableGet? (l : List α) (n : ℕ) : Option α := l.get? n

/-- Total variant of `tableGet?` used where the index is provably in
bounds; the default is never reached there. -/
def tableGet (l : List α) (d : α) (n : ℕ) : α := (l.get? n).getD d

/-- Descending sortedness: every later element's key is ≤ every earlier one. -/
def SortedDesc (key : α → ℤ) (l : List α) : Prop :=
  l.Pairwise (fun a b => key b ≤ key a)

/-! ## Data model (src/types/pnode.ts, fields used by the pipeline) -/

inductive Status
  | online
  | offline
  | degraded
deriving DecidableEq, Repr

inductive Tier
  | excellent
  | good
  | fair
  | poor
deriving DecidableEq, Repr

inductive Grade
  | S
  | A
  | B
  | C
  | D
  | F
deriving DecidableEq, Repr

inductive RiskLevel
  | high
  | medium
  | low
deriving DecidableEq, Repr

/-- An entry of the fixed `NODE_LOCATIONS` table. -/
structure Location where
  country : String
  countryCode : String
  city : String
  lat : ℚ
  lng : ℚ
deriving DecidableEq, Repr

/-- A node's resolved location: a `Location` spread together with a
datacenter and ASN (`{...location, datacenter, asn}`). -/
structure LocInfo where
  country : String
  countryCode : String
  city : String
  lat : ℚ
  lng : ℚ
  datacenter : String
  asn : String
deriving DecidableEq, Repr

structure Metrics where
  cpuPercent : ℚ
  memoryPercent : ℚ
  storageUsedGB : ℚ
  storageCapacityGB : ℚ
  responseTimeMs : ℚ
deriving DecidableEq, Repr

structure Performance where
  score : ℚ
  tier : Tier
deriving DecidableEq, Repr

structure Gossip where
  peersConnected : ℚ
  messagesReceived : ℚ
  messagesSent : ℚ
deriving DecidableEq, Repr

structure Staking where
  commission : ℚ
  delegatedStake : ℚ
  activatedStake : ℚ
  apy : ℚ
  lastVote : ℚ
  rootSlot : ℚ
deriving DecidableEq, Repr

/-- The canonical merged node record (`PNode`).  `credits` is optional in
the TypeScript type; the `history` arrays (sinusoidal floating-point
decoration) are omitted, see the header comment. -/
structure PNode where
  id : String
  pubkey : String
  ip : String
  port : ℕ
  version : String
  status : Status
  uptime : ℚ
  lastSeen : ℤ
  location : LocInfo
  credits : Option ℤ
  creditsRank : Option ℕ
  metrics : Metrics
  performance : Performance
  gossip : Gossip
  staking : Staking
deriving DecidableEq, Repr

/-- One entry of the credits ledger (`pods_credits`). -/
structure Pod where
  credits : ℤ
  pod_id : String
deriving DecidableEq, Repr

/-- The credits adapter's response shape. -/
structure PodCreditsResponse where
  pods_credits : List Pod
deriving DecidableEq, Repr

/-! ## Deterministic fallback generator
(src/features/pnodes/services/utils.ts; byte-identical copies of these
functions and tables live in src/lib/pnode-api.ts and src/unnamed/part_004) -/

namespace Utils

/-- Positional weighted sum: `acc + charCode(i) * (i + 1)`. -/
def hashAux : ℕ → List ℕ → ℕ
  | _, [] => 0
  | i, c :: cs => c * (i + 1) + hashAux (i + 1) cs

/-- `pubkey.split('').reduce((acc, char, i) => acc + char.charCodeAt(0) * (i + 1), 0)`.
`Char.toNat` agrees with `charCodeAt` on the BMP (identities are ASCII). -/
def hashPubkey (pubkey : String) : ℕ :=
  hashAux 0 (pubkey.data.map Char.toNat)

def NODE_LOCATIONS : List Location := [
  ⟨"United States", "US", "New York", 40.7128, -74.006⟩,
  ⟨"United States", "US", "Los Angeles", 34.0522, -118.2437⟩,
  ⟨"United States", "US", "Chicago", 41.8781, -87.6298⟩,
  ⟨"United States", "US", "Miami", 25.7617, -80.1918⟩,
  ⟨"United States", "US", "Dallas", 32.7767, -96.7970⟩,
  ⟨"United States", "US", "Seattle", 47.6062, -122.3321⟩,
  ⟨"Germany", "DE", "Frankfurt", 50.1109, 8.6821⟩,
  ⟨"Germany", "DE", "Berlin", 52.52, 13.405⟩,
  ⟨"Germany", "DE", "Munich", 48.1351, 11.5820⟩,
  ⟨"Netherlands", "NL", "Amsterdam", 52.3676, 4.9041⟩,
  ⟨"United Kingdom", "GB", "London", 51.5074, -0.1278⟩,
  ⟨"France", "FR", "Paris", 48.8566, 2.3522⟩,
  ⟨"Japan", "JP", "Tokyo", 35.6762, 139.6503⟩,
  ⟨"Singapore", "SG", "Singapore", 1.3521, 103.8198⟩,
  ⟨"Australia", "AU", "Sydney", -33.8688, 151.2093⟩,
  ⟨"Canada", "CA", "Toronto", 43.6532, -79.3832⟩,
  ⟨"Brazil", "BR", "São Paulo", -23.5505, -46.6333⟩,
  ⟨"India", "IN", "Mumbai", 19.076, 72.8777⟩,
  ⟨"India", "IN", "Bangalore", 12.9716, 77.5946⟩,
  ⟨"South Korea", "KR", "Seoul", 37.5665, 126.978⟩,
  ⟨"Switzerland", "CH", "Zurich", 47.3769, 8.5417⟩,
  ⟨"Ireland", "IE", "Dublin", 53.3498, -6.2603⟩,
  ⟨"Poland", "PL", "Warsaw", 52.2297, 21.0122⟩,
  ⟨"Finland", "FI", "Helsinki", 60.1699, 24.9384⟩,
  ⟨"Sweden", "SE", "Stockholm", 59.3293, 18.0686⟩,
  ⟨"Spain", "ES", "Madrid", 40.4168, -3.7038⟩,
  ⟨"Italy", "IT", "Milan", 45.4642, 9.1900⟩,
  ⟨"Hong Kong", "HK", "Hong Kong", 22.3193, 114.1694⟩,
  ⟨"UAE", "AE", "Dubai", 25.2048, 55.2708⟩,
  ⟨"South Africa", "ZA", "Cape Town", -33.9249, 18.4241⟩]

def DATACENTERS : List String := [
  "AWS US-East", "AWS US-West", "AWS EU-West", "AWS AP-Tokyo",
  "GCP US-Central", "GCP EU-West", "GCP Asia-East",
  "Hetzner FSN", "Hetzner HEL", "OVH FR", "OVH DE",
  "Contabo DE", "Contabo US", "DigitalOcean NYC", "DigitalOcean AMS",
  "Vultr", "Linode", "Azure EU", "Azure US"]

structure AsnEntry where
  asn : String
  provider : String
deriving DecidableEq, Repr

def ASNS : List AsnEntry := [
  ⟨"AS24940", "Hetzner"⟩,
  ⟨"AS51167", "Contabo"⟩,
  ⟨"AS16509", "Amazon"⟩,
  ⟨"AS15169", "Google"⟩,
  ⟨"AS8075", "Microsoft"⟩,
  ⟨"AS16276", "OVH"⟩,
  ⟨"AS14061", "DigitalOcean"⟩,
  ⟨"AS20473", "Vultr"⟩]

/-- Faithful JS semantics of `getNodeLocation`: each table access
`TABLE[h % TABLE.length]` is partial (`undefined` out of bounds), so the
function is `Option`-valued; the in-bounds proof is a theorem below. -/
def getNodeLocationJS (pubkey : String) (index : ℕ) : Option LocInfo :=
  let hash := hashPubkey pubkey
  match tableGet? NODE_LOCATIONS ((hash + index) % NODE_LOCATIONS.length),
        tableGet? DATACENTERS ((hash * 7 + index) % DATACENTERS.length),
        tableGet? ASNS ((hash * 13 + index) % ASNS.length) with
  | some l, some d, some a =>
    some ⟨l.country, l.countryCode, l.city, l.lat, l.lng, d, a.asn⟩
  | _, _, _ => none

/-- Total version of `getNodeLocation`; the defaults are unreachable
(`getNodeLocationJS_total` below). -/
def getNodeLocation (pubkey : String) (index : ℕ) : LocInfo :=
  let hash := hashPubkey pubkey
  let l := tableGet NODE_LOCATIONS ⟨"", "", "", 0, 0⟩
    ((hash + index) % NODE_LOCATIONS.length)
  let d := tableGet DATACENTERS "" ((hash * 7 + index) % DATACENTERS.length)
  let a := tableGet ASNS ⟨"", ""⟩ ((hash * 13 + index) % ASNS.length)
  ⟨l.country, l.countryCode, l.city, l.lat, l.lng, d, a.asn⟩

/-- The four octets of the synthesized IPv4 address. -/
def ipOctets (pubkey : String) : ℕ × ℕ × ℕ × ℕ :=
  let hash := hashPubkey pubkey
  (hash % 200 + 50, hash * 7 % 256, hash * 13 % 256, hash * 19 % 256)

def generateDeterministicIP (pubkey : String) : String :=
  let o := ipOctets pubkey
  toString o.1 ++ "." ++ toString o.2.1 ++ "." ++ toString o.2.2.1
    ++ "." ++ toString o.2.2.2

def getTier (score : ℚ) : Tier :=
  if 80 ≤ score then .excellent
  else if 60 ≤ score then .good
  else if 30 ≤ score then .fair
  else .poor

/-- `MAX_CREDITS = 60000`, the calibration constant. -/
def MAX_CREDITS : ℚ := 60000

def calculatePerformanceFromCredits (credits : ℤ) : Performance :=
  let normalizedScore := min 100 ((credits : ℚ) / MAX_CREDITS * 100)
  ⟨normalizedScore, getTier normalizedScore⟩

end Utils

/-! ## Client pipeline (src/lib/pnode-api.ts) -/

namespace PnodeApi

/-- An entry of the DevNet RPC `getClusterNodes` response. -/
structure ClusterEntry where
  pubkey : Option String
  nodePubkey : Option String
  gossip : Option String
  rpc : Option String
  version : Option String
  delinquent : Bool
deriving DecidableEq, Repr

/-- `transformPodToNode(pod, index, totalNodes)`; `totalNodes` is accepted
and unused exactly as in the source; `now` stands for `Date.now()`. -/
def transformPodToNode (pod : Pod) (index : ℕ) (totalNodes : ℕ) (now : ℤ) :
    PNode :=
  let pubkey := pod.pod_id
  let credits := pod.credits
  let hash := Utils.hashPubkey pubkey
  let performance := Utils.calculatePerformanceFromCredits credits
  let status : Status :=
    if 5000 < credits then .online
    else if 0 < credits then .degraded
    else .offline
  let location := Utils.getNodeLocation pubkey index
  let uptimeBase : ℚ := if 0 < credits then 70 + performance.score * 0.3 else 0
  let cpuBase : ℚ := if status = .online then 20 + ((hash % 30 : ℕ) : ℚ) else 0
  let memBase : ℚ := if status = .online then 40 + ((hash % 25 : ℕ) : ℚ) else 0
  let latencyBase : ℚ :=
    if status = .online then 30 + (100 - performance.score) + ((hash % 20 : ℕ) : ℚ)
    else 999
  { id := "pnode_" ++ toString index
    pubkey := pubkey
    ip := Utils.generateDeterministicIP pubkey
    port := 6000
    version := "0.7.0"
    status := status
    uptime := uptimeBase
    lastSeen := now
    location := location
    credits := some credits
    creditsRank := some (index + 1)
    metrics :=
      { cpuPercent := cpuBase
        memoryPercent := memBase
        storageUsedGB := 100 + ((hash % 400 : ℕ) : ℚ)
        storageCapacityGB :=
          tableGet [(1000 : ℚ), 2000, 4000, 8000] 0 ((hash + index) % 4)
        responseTimeMs := latencyBase }
    performance := performance
    gossip :=
      { peersConnected := if status = .online then 10 + ((hash % 40 : ℕ) : ℚ) else 0
        messagesReceived := (credits : ℚ) * 10
        messagesSent := (credits : ℚ) * 8 }
    staking :=
      { commission := ((hash % 10 : ℕ) : ℚ)
        delegatedStake := (credits : ℚ) * 100
        activatedStake := (credits : ℚ) * 90
        apy := 5 + performance.score / 50
        lastVote := (now : ℚ) - (100 - performance.score) * 1000
        rootSlot := 85000000 + (index : ℚ) } }

def transformClusterNodeData (node : ClusterEntry) (index : ℕ) (now : ℤ) :
    PNode :=
  let pubkey := orElseStr node.pubkey
    (orElseStr node.nodePubkey ("devnet_node_" ++ toString index))
  let hash := Utils.hashPubkey pubkey
  let location := Utils.getNodeLocation pubkey index
  let ip := orElseStr (node.gossip.map hostPart)
    (orElseStr (node.rpc.map hostPart) (Utils.generateDeterministicIP pubkey))
  let score : ℚ := if node.delinquent then 0 else 60 + ((hash % 40 : ℕ) : ℚ)
  { id := "pnode_" ++ toString index
    pubkey := pubkey
    ip := ip
    port := orElseNat (node.gossip.bind portPart) 8899
    version := orElseStr node.version "0.7.0"
    status := if node.delinquent then .offline else .online
    uptime := if node.delinquent then 0 else 80 + ((hash % 20 : ℕ) : ℚ)
    lastSeen := now
    location := location
    credits := none
    creditsRank := none
    metrics :=
      { cpuPercent := 20 + ((hash % 30 : ℕ) : ℚ)
        memoryPercent := 40 + ((hash % 25 : ℕ) : ℚ)
        storageUsedGB := 100 + ((hash % 400 : ℕ) : ℚ)
        storageCapacityGB := 1000
        responseTimeMs := 50 + ((hash % 50 : ℕ) : ℚ) }
    performance := { score := score, tier := Utils.getTier score }
    gossip :=
      { peersConnected := 10 + ((hash % 40 : ℕ) : ℚ)
        messagesReceived := 10000 + ((hash % 50000 : ℕ) : ℚ)
        messagesSent := 8000 + ((hash % 40000 : ℕ) : ℚ) }
    staking :=
      { commission := ((hash % 10 : ℕ) : ℚ)
        delegatedStake := 10000 + ((hash % 100000 : ℕ) : ℚ)
        activatedStake := 9000 + ((hash % 90000 : ℕ) : ℚ)
        apy := 5 + ((hash % 30 : ℕ) : ℚ) / 10
        lastVote := (now : ℚ) - ((hash % 10000 : ℕ) : ℚ)
        rootSlot := 85000000 + (index : ℚ) } }

/-- `getClusterNodes` as a pure function of the two adapter responses it
consumed (`fetchPodCredits`, `fetchRPC('getClusterNodes')`); `none` models
an adapter returning `null`/failing. -/
def getClusterNodes (podCredits : Option PodCreditsResponse)
    (clusterData : Option (List ClusterEntry)) (now : ℤ) : List PNode :=
  let clusterFallback :=
    match clusterData with
    | some l => mapIdxFrom (fun i n => transformClusterNodeData n i now) 0 l
    | none => []
  match podCredits with
  | some pc =>
    if 0 < pc.pods_credits.length then
      let sortedPods := sortByDesc (fun p => p.credits) pc.pods_credits
      mapIdxFrom (fun i pod => transformPodToNode pod i sortedPods.length now)
        0 sortedPods
    else clusterFallback
  | none => clusterFallback

structure NetworkStats where
  totalNodes : ℕ
  onlineNodes : ℕ
  offlineNodes : ℕ
  degradedNodes : ℕ
  totalStorageCapacityTB : ℚ
  totalStorageUsedTB : ℚ
  averageUptime : ℚ
  averageResponseTime : ℚ
  networkHealth : ℚ
  gossipMessages24h : ℚ
  lastUpdated : ℤ
deriving DecidableEq, Repr

/-- `getNetworkStats` over the node set produced by `getClusterNodes`. -/
def getNetworkStats (nodes : List PNode) (now : ℤ) : NetworkStats :=
  let onlineNodes := (nodes.filter (fun n => n.status == Status.online)).length
  let offlineNodes := (nodes.filter (fun n => n.status == Status.offline)).length
  let degradedNodes := (nodes.filter (fun n => n.status == Status.degraded)).length
  let totalCapacity := (nodes.map (fun n => n.metrics.storageCapacityGB)).sum / 1000
  let totalUsed := (nodes.map (fun n => n.metrics.storageUsedGB)).sum / 1000
  let onlineNodesData := nodes.filter (fun n => n.status == Status.online)
  let avgUptime : ℚ :=
    if 0 < onlineNodesData.length then
      (onlineNodesData.map (fun n => n.uptime)).sum / (onlineNodesData.length : ℚ)
    else 0
  let avgResponseTime : ℚ :=
    if 0 < onlineNodesData.length then
      (onlineNodesData.map (fun n => n.metrics.responseTimeMs)).sum
        / (onlineNodesData.length : ℚ)
    else 0
  let networkHealth : ℚ :=
    if 0 < nodes.length then ((onlineNodes : ℚ) / (nodes.length : ℚ)) * 100 else 0
  { totalNodes := nodes.length
    onlineNodes := onlineNodes
    offlineNodes := offlineNodes
    degradedNodes := degradedNodes
    totalStorageCapacityTB := totalCapacity
    totalStorageUsedTB := totalUsed
    averageUptime := avgUptime
    averageResponseTime := avgResponseTime
    networkHealth := networkHealth
    gossipMessages24h :=
      (nodes.map (fun n => n.gossip.messagesReceived + n.gossip.messagesSent)).sum
    lastUpdated := now }

structure CountryDist where
  country : String
  count : ℕ
  percentage : ℚ
deriving DecidableEq, Repr

structure DatacenterDist where
  datacenter : String
  count : ℕ
  percentage : ℚ
deriving DecidableEq, Repr

structure AsnDist where
  asn : String
  provider : String
  count : ℕ
  percentage : ℚ
deriving DecidableEq, Repr

structure DecentralizationMetrics where
  nakamotoCoefficient : ℕ
  giniCoefficient : ℚ
  countryDistribution : List CountryDist
  datacenterDistribution : List DatacenterDist
  asnDistribution : List AsnDist
deriving DecidableEq, Repr

/-- `record[key] = (record[key] || 0) + 1` on an insertion-ordered record
(JS objects preserve insertion order for non-numeric string keys). -/
def bump (k : String) : List (String × ℕ) → List (String × ℕ)
  | [] => [(k, 1)]
  | (k', c) :: rest => if k' = k then (k', c + 1) :: rest else (k', c) :: bump k rest

/-- Counting pass over the nodes, keeping only truthy keys. -/
def countsByIf (key : PNode → String) (keep : String → Bool)
    (nodes : List PNode) : List (String × ℕ) :=
  nodes.foldl (fun acc n => if keep (key n) then bump (key n) acc else acc) []

/-- `ASNS.find(a => a.asn === asn)?.provider || 'Unknown'`; the source
resolves the provider when an ASN is first inserted, which is equivalent
because the provider is a function of the ASN alone. -/
def providerOf (asn : String) : String :=
  ((Utils.ASNS.find? (fun a => a.asn == asn)).map (fun a => a.provider)).getD
    "Unknown"

/-- The Nakamoto accumulation: `sum += count; nakamoto++; if (sum > total/2) break`. -/
def nakamotoLoop (halfTotal : ℚ) : List ℕ → ℕ → ℚ → ℕ
  | [], nak, _ => nak
  | c :: rest, nak, s =>
    if halfTotal < s + (c : ℚ) then nak + 1
    else nakamotoLoop halfTotal rest (nak + 1) (s + (c : ℚ))

/-- `getDecentralizationMetrics` over the node set; every merged node carries
a `location` object, so the `if (node.location)` guard of the source is
always taken, while the `datacenter`/`asn` truthiness guards drop `""`. -/
def getDecentralizationMetrics (nodes : List PNode) : DecentralizationMetrics :=
  let countryCount := countsByIf (fun n => n.location.country) (fun _ => true) nodes
  let datacenterCount :=
    countsByIf (fun n => n.location.datacenter) (fun s => s != "") nodes
  let asnCount := countsByIf (fun n => n.location.asn) (fun s => s != "") nodes
  let total : ℚ := if nodes.length = 0 then 1 else (nodes.length : ℚ)
  let countryDistribution := sortByDesc (fun d => (d.count : ℤ))
    (countryCount.map (fun p => CountryDist.mk p.1 p.2 ((p.2 : ℚ) / total * 100)))
  let datacenterDistribution := sortByDesc (fun d => (d.count : ℤ))
    (datacenterCount.map
      (fun p => DatacenterDist.mk p.1 p.2 ((p.2 : ℚ) / total * 100)))
  let asnDistribution := sortByDesc (fun d => (d.count : ℤ))
    (asnCount.map
      (fun p => AsnDist.mk p.1 (providerOf p.1) p.2 ((p.2 : ℚ) / total * 100)))
  let sortedCounts :=
    sortByDesc (fun c : ℕ => (c : ℤ)) (countryCount.map (fun p => p.2))
  { nakamotoCoefficient := nakamotoLoop (total / 2) sortedCounts 0 0
    giniCoefficient := 0.35
    countryDistribution := countryDistribution
    datacenterDistribution := datacenterDistribution
    asnDistribution := asnDistribution }

structure XScore where
  overall : ℚ
  storageThroughput : ℚ
  dataAvailabilityLatency : ℚ
  uptime : ℚ
  gossipHealth : ℚ
  peerConnectivity : ℚ
  grade : Grade
deriving DecidableEq, Repr

def getXScoreGrade (score : ℚ) : Grade :=
  if 95 ≤ score then .S
  else if 85 ≤ score then .A
  else if 70 ≤ score then .B
  else if 55 ≤ score then .C
  else if 40 ≤ score then .D
  else .F

def calculateXScore (node : PNode) : XScore :=
  let storageThroughput : ℚ :=
    min 100 ((node.metrics.storageUsedGB / node.metrics.storageCapacityGB * 100) * 1.5)
  let dataAvailabilityLatency : ℚ :=
    max 0 (100 - node.metrics.responseTimeMs * 0.5)
  let uptime := node.uptime
  let gossipHealth : ℚ := min 100 (node.gossip.peersConnected * 2)
  let peerConnectivity : ℚ := min 100 (node.gossip.peersConnected * 3)
  let overall := storageThroughput * 0.25 + dataAvailabilityLatency * 0.25
    + uptime * 0.20 + gossipHealth * 0.15 + peerConnectivity * 0.15
  { overall := overall
    storageThroughput := storageThroughput
    dataAvailabilityLatency := dataAvailabilityLatency
    uptime := uptime
    gossipHealth := gossipHealth
    peerConnectivity := peerConnectivity
    grade := getXScoreGrade overall }

/-- `getXScore(nodeId?)` over the node set: per-node score when the id
resolves, otherwise the network aggregate over online nodes. -/
def getXScore (nodes : List PNode) (nodeId : Option String) : XScore :=
  match nodeId.bind (fun nid => nodes.find? (fun n => n.id == nid)) with
  | some node => calculateXScore node
  | none =>
    let onlineNodes := nodes.filter (fun n => n.status == Status.online)
    if onlineNodes.length = 0 then ⟨0, 0, 0, 0, 0, 0, .F⟩
    else
      let len : ℚ := (onlineNodes.length : ℚ)
      let avgThroughput :=
        ((onlineNodes.map
          (fun n => n.metrics.storageUsedGB / n.metrics.storageCapacityGB * 100)).sum) / len
      let avgLatency := ((onlineNodes.map (fun n => n.metrics.responseTimeMs)).sum) / len
      let avgUptime := ((onlineNodes.map (fun n => n.uptime)).sum) / len
      let avgGossip := ((onlineNodes.map (fun n => n.gossip.peersConnected)).sum) / len
      let storageThroughput : ℚ := min 100 (avgThroughput * 1.5)
      let dataAvailabilityLatency : ℚ := max 0 (100 - avgLatency * 0.5)
      let uptime := avgUptime
      let gossipHealth : ℚ := min 100 (avgGossip * 2)
      let peerConnectivity : ℚ := min 100 (avgGossip * 3)
      let overall := storageThroughput * 0.25 + dataAvailabilityLatency * 0.25
        + uptime * 0.20 + gossipHealth * 0.15 + peerConnectivity * 0.15
      { overall := overall
        storageThroughput := storageThroughput
        dataAvailabilityLatency := dataAvailabilityLatency
        uptime := uptime
        gossipHealth := gossipHealth
        peerConnectivity := peerConnectivity
        grade := getXScoreGrade overall }

structure SuperminorityEntry where
  pubkey : String
  stake : ℤ
  percentage : ℚ
deriving DecidableEq, Repr

structure SuperminorityInfo where
  count : ℕ
  threshold : ℚ
  nodes : List SuperminorityEntry
  riskLevel : RiskLevel
deriving DecidableEq, Repr

/-- The superminority accumulation loop:
`for node of sorted: if (sum >= threshold) break; push(node); sum += credits`. -/
def superAccum (totalCredits : ℤ) (threshold : ℚ) :
    ℚ → List PNode → List SuperminorityEntry
  | _, [] => []
  | s, n :: rest =>
    if threshold ≤ s then []
    else
      let credits := n.credits.getD 0
      ⟨n.pubkey, credits,
        if 0 < totalCredits then ((credits : ℚ) / (totalCredits : ℚ)) * 100 else 0⟩
        :: superAccum totalCredits threshold (s + (credits : ℚ)) rest

/-- `getSuperminorityInfo` over the node set produced by `getClusterNodes`;
same in src/lib/pnode-api.ts lines 1015-1045 and src/unnamed/part_004
lines 1348-1377.  The source's `onlineNodes` binding is unused there and
is dropped here. -/
def getSuperminorityInfo (nodes : List PNode) : SuperminorityInfo :=
  let totalCredits : ℤ := (nodes.map (fun n => n.credits.getD 0)).sum
  let sorted := sortByDesc (fun n => n.credits.getD 0) nodes
  let threshold : ℚ := (totalCredits : ℚ) * 0.33
  let superminorityNodes := superAccum totalCredits threshold 0 sorted
  { count := superminorityNodes.length
    threshold := 33
    nodes := superminorityNodes
    riskLevel :=
      if superminorityNodes.length < 5 then .high
      else if superminorityNodes.length < 15 then .medium
      else .low }

end PnodeApi

/-! ## Server pipeline and staleness gate (src/server/api/pnodes.ts) -/

namespace ServerApi

/-- Response of the geolocation adapter for one IP (`GeolocationData`);
the TS field `as` is spelled `asStr` (reserved word in Lean). -/
structure GeolocationData where
  country : Option String
  countryCode : Option String
  city : Option String
  lat : Option ℚ
  lon : Option ℚ
  org : Option String
  asStr : Option String
deriving DecidableEq, Repr

/-- One pod record of the `getPodsWithStats` / `getPods` RPC response. -/
structure RpcPod where
  pubkey : Option String
  address : Option String
  rpc_port : Option ℕ
  version : Option String
  last_seen_timestamp : Option ℤ
  uptime : Option ℚ
  storage_used : Option ℚ
  storage_committed : Option ℚ
deriving DecidableEq, Repr

/-- The `creditData` argument of `mapRpcNodeToPNode`. -/
structure CreditData where
  credits : ℤ
deriving DecidableEq, Repr

/-- `Map`-style lookup in a record built by repeated assignment. -/
def recordGet {β : Type} (l : List (String × β)) (k : String) : Option β :=
  l.foldl (fun acc p => if p.1 = k then some p.2 else acc) none

/-- The value `mapRpcNodeToPNode` computes when it does not throw.
`now` stands for `Date.now()` (milliseconds). -/
def mapRpcNodeToPNodeCore (rpcNode : RpcPod) (creditData : Option CreditData)
    (index : ℕ) (geoData : Option GeolocationData) (now : ℤ) : PNode :=
  let pubkey := orElseStr rpcNode.pubkey ("unknown-" ++ toString index)
  let ip :=
    match rpcNode.address with
    | some a => if a = "" then Utils.generateDeterministicIP pubkey else hostPart a
    | none => Utils.generateDeterministicIP pubkey
  let credits : ℤ := (creditData.map (fun c => c.credits)).getD 0
  let normalizedScore : ℚ := min 100 ((credits : ℚ) / 60000 * 100)
  let hash := Utils.hashPubkey pubkey
  let status : Status :=
    match rpcNode.last_seen_timestamp with
    | some t =>
      if (now : ℚ) / 1000 - (t : ℚ) < 300 then .online else .offline
    | none => .offline
  let location : LocInfo :=
    match geoData with
    | some g =>
      { country := orElseStr g.country "Unknown"
        countryCode := orElseStr g.countryCode "UN"
        city := orElseStr g.city "Unknown"
        lat := g.lat.getD 0
        lng := g.lon.getD 0
        datacenter := orElseStr g.org "Unknown"
        asn :=
          match g.asStr with
          | some s => if firstWord s = "" then "Unknown" else firstWord s
          | none => "Unknown" }
    | none => Utils.getNodeLocation pubkey index
  { id := "pnode_" ++ toString index
    pubkey := pubkey
    ip := ip
    port := orElseNat rpcNode.rpc_port 6000
    version := orElseStr rpcNode.version "0.7.0"
    status := status
    uptime := rpcNode.uptime.getD 0
    lastSeen := (rpcNode.last_seen_timestamp.getD 0) * 1000
    location := location
    credits := some credits
    creditsRank := some (index + 1)
    metrics :=
      { cpuPercent := 20 + ((hash % 30 : ℕ) : ℚ)
        memoryPercent := 40 + ((hash % 25 : ℕ) : ℚ)
        storageUsedGB :=
          match rpcNode.storage_used with
          | some s => if s = 0 then 0 else s / (1024 * 1024 * 1024)
          | none => 0
        storageCapacityGB :=
          match rpcNode.storage_committed with
          | some s => if s = 0 then 1000 else s / (1024 * 1024 * 1024)
          | none => 1000
        responseTimeMs := 50 + ((hash % 50 : ℕ) : ℚ) }
    performance := { score := normalizedScore, tier := Utils.getTier normalizedScore }
    gossip := { peersConnected := 10 + ((hash % 40 : ℕ) : ℚ)
                messagesReceived := 0, messagesSent := 0 }
    staking := ⟨0, 0, 0, 0, 0, 0⟩ }

/-- `mapRpcNodeToPNode`: when `last_seen_timestamp` is absent,
`new Date(undefined * 1000).toISOString()` throws a `RangeError`, modelled
as `none`; the caller's `try/catch` turns this into an empty result. -/
def mapRpcNodeToPNode (rpcNode : RpcPod) (creditData : Option CreditData)
    (index : ℕ) (geoData : Option GeolocationData) (now : ℤ) : Option PNode :=
  match rpcNode.last_seen_timestamp with
  | some _ => some (mapRpcNodeToPNodeCore rpcNode creditData index geoData now)
  | none => none

/-- `Array.from(new Map(sorted.map(i => [i.pubkey, i])).values())`: first
occurrence decides the position, the last occurrence decides the value. -/
def upsertByKey (k : String) (v : PNode) :
    List (String × PNode) → List (String × PNode)
  | [] => [(k, v)]
  | (k', v') :: rest =>
    if k' = k then (k', v) :: rest else (k', v') :: upsertByKey k v rest

def uniqueByPubkey (nodes : List PNode) : List PNode :=
  (nodes.foldl (fun acc n => upsertByKey n.pubkey n acc) []).map (fun p => p.2)

/-- The credit map `podCredits?.pods_credits.forEach(pc => set(pod_id, credits))`. -/
def ledgerOf (podCredits : Option PodCreditsResponse) : List (String × ℤ) :=
  match podCredits with
  | some pc => pc.pods_credits.map (fun p => (p.pod_id, p.credits))
  | none => []

/-- `creditMap.get(rpcNode.pubkey) || 0`. -/
def creditsForPod (ledger : List (String × ℤ)) (p : RpcPod) : ℤ :=
  (p.pubkey.bind (lookupLast ledger)).getD 0

/-- `const ip = rpcNode.address?.split(':')[0]; const geo = ip ? geoBatch[ip] : undefined`. -/
def geoForPod (geoBatch : List (String × GeolocationData)) (p : RpcPod) :
    Option GeolocationData :=
  match p.address.map hostPart with
  | some ip => if ip = "" then none else recordGet geoBatch ip
  | none => none

/-- `fetchFromRpcAndCache` as a pure function of the adapter responses:
the RPC pod list, the credits ledger response and the batch-geolocation
record.  The persisted rows are `uniqueByPubkey` of the sorted list, but
the function RETURNS `sorted` itself (duplicates included). -/
def fetchFromRpcAndCache (rpcPods : List RpcPod)
    (podCredits : Option PodCreditsResponse)
    (geoBatch : List (String × GeolocationData)) (now : ℤ) : List PNode :=
  let ledger := ledgerOf podCredits
  let mappedNodes := mapIdxFrom
    (fun i p =>
      mapRpcNodeToPNode p (some ⟨creditsForPod ledger p⟩) i
        (geoForPod geoBatch p) now)
    0 rpcPods
  match optionTraverse mappedNodes with
  | none => []
  | some nodes => sortByDesc (fun n => n.credits.getD 0) nodes

/-- A row of the `pnodes` table (the durable store). -/
structure Row where
  pubkey : String
  ip : String
  port : ℕ
  version : String
  status : Status
  uptime : ℚ
  last_seen : ℤ
  location : LocInfo
  metrics : Metrics
  performance : Performance
  credits : Option ℤ
  credits_rank : Option ℕ
  gossip : Gossip
  staking : Staking
  updated_at : ℤ
deriving DecidableEq, Repr

def mapPNodeToRow (node : PNode) (now : ℤ) : Row :=
  { pubkey := node.pubkey
    ip := node.ip
    port := node.port
    version := node.version
    status := node.status
    uptime := node.uptime
    last_seen := node.lastSeen
    location := node.location
    metrics := node.metrics
    performance := node.performance
    credits := node.credits
    credits_rank := node.creditsRank
    gossip := node.gossip
    staking := node.staking
    updated_at := now }

def mapRowToPNode (row : Row) : PNode :=
  { id := "pnode_" ++
      (match row.credits_rank with | some r => toString r | none => "null")
    pubkey := row.pubkey
    ip := row.ip
    port := row.port
    version := row.version
    status := row.status
    uptime := row.uptime
    lastSeen := row.last_seen
    location := row.location
    credits := row.credits
    creditsRank := row.credits_rank
    metrics := row.metrics
    performance := row.performance
    gossip := row.gossip
    staking := row.staking }

/-- Outcome of the staleness gate: either the cached snapshot is served
untouched, or a full refresh (adapter fetches, merge, persist, return)
is triggered. -/
inductive GateOutcome
  | servedCache (nodes : List PNode)
  | refreshed (nodes : List PNode)
deriving DecidableEq, Repr

/-- `getClusterNodes` (the staleness gate): `cachedNodes` is the row set
read from the durable store (ordered by credits descending, as queried);
`fresh` stands for the value `fetchFromRpcAndCache()` would produce at
this instant.  The freshness check is
`(now - new Date(cachedNodes[0].updated_at).getTime()) > 5 * 60 * 1000`. -/
def getClusterNodes (cachedNodes : List Row) (now : ℤ) (fresh : List PNode) :
    GateOutcome :=
  match cachedNodes with
  | [] => .refreshed fresh
  | r :: rest =>
    let oldestUpdate := r.updated_at
    let isStale := 5 * 60 * 1000 < now - oldestUpdate
    if isStale then .refreshed fresh
    else .servedCache ((r :: rest).map mapRowToPNode)

end ServerApi

/-! ## Feature-service variant of the merge (src/unnamed/part_002) -/

namespace Svc

/-- The `realData?: Partial<PNode>` overlay obtained from
`getMergedNodeData()` (cluster list + vote accounts), fields used by
`transformPodToFull`. -/
structure PartialPNode where
  location : Option LocInfo
  ip : Option String
  port : Option ℕ
  version : Option String
  staking : Option Staking
deriving DecidableEq, Repr

/-- `transformPodToFull(pc, index, realData)`: builds a node from one
credits-ledger entry.  Its status rule is the two-state
`credits > 0 ? 'online' : 'offline'` — there is no `degraded` outcome. -/
def transformPodToFull (pc : Pod) (index : ℕ)
    (realData : Option PartialPNode) (now : ℤ) : PNode :=
  let credits := pc.credits
  let pubkey := pc.pod_id
  let hash := Utils.hashPubkey pubkey
  let normalizedScore : ℚ := min 100 ((credits : ℚ) / 60000 * 100)
  let performance : Performance := ⟨normalizedScore, Utils.getTier normalizedScore⟩
  let status : Status := if 0 < credits then .online else .offline
  let location :=
    (realData.bind (fun r => r.location)).getD (Utils.getNodeLocation pubkey index)
  let ip := orElseStr (realData.bind (fun r => r.ip))
    (Utils.generateDeterministicIP pubkey)
  let port := orElseNat (realData.bind (fun r => r.port)) 6000
  let version := orElseStr (realData.bind (fun r => r.version)) "0.7.0"
  let uptimeBase : ℚ := if 0 < credits then 70 + performance.score * 0.3 else 0
  let cpuBase : ℚ := if status = .online then 20 + ((hash % 30 : ℕ) : ℚ) else 0
  let memBase : ℚ := if status = .online then 40 + ((hash % 25 : ℕ) : ℚ) else 0
  let latencyBase : ℚ :=
    if status = .online then 30 + (100 - performance.score) + ((hash % 20 : ℕ) : ℚ)
    else 999
  let staking := (realData.bind (fun r => r.staking)).getD
    { commission := ((hash % 10 : ℕ) : ℚ)
      delegatedStake := (credits : ℚ) * 100
      activatedStake := (credits : ℚ) * 90
      apy := 5 + performance.score / 50
      lastVote := (now : ℚ) - (100 - performance.score) * 1000
      rootSlot := 85000000 + (index : ℚ) }
  { id := "pnode_" ++ toString index
    pubkey := pubkey
    ip := ip
    port := port
    version := version
    status := status
    uptime := uptimeBase
    lastSeen := now
    location := location
    credits := some credits
    creditsRank := some (index + 1)
    metrics :=
      { cpuPercent := cpuBase
        memoryPercent := memBase
        storageUsedGB := 100 + ((hash % 400 : ℕ) : ℚ)
        storageCapacityGB :=
          tableGet [(1000 : ℚ), 2000, 4000, 8000] 0 ((hash + index) % 4)
        responseTimeMs := latencyBase }
    performance := performance
    gossip :=
      { peersConnected := if status = .online then 10 + ((hash % 40 : ℕ) : ℚ) else 0
        messagesReceived := (credits : ℚ) * 10
        messagesSent := (credits : ℚ) * 8 }
    staking := staking }

end Svc

/-! ## HTTP query surface (src/app/api/pnode-data/route.ts) -/

namespace Route

/-- Outcome of a `GET /api/pnode-data` request. -/
inductive ApiOutcome
  | ok (ty : String)
  | clientError (msg : String) (code : ℕ)
  | serverError (msg : String) (code : ℕ)
deriving DecidableEq, Repr

def isClientError : ApiOutcome → Bool
  | .clientError _ _ => true
  | _ => false

/-- The `type` selectors handled by the switch, in source order. -/
def knownTypes : List String := [
  "network-stats", "network-tps", "network-events", "performance-history",
  "gossip-health", "storage-distribution", "epoch-info", "epoch-history",
  "staking-stats", "commission-history", "slashing-events",
  "exabyte-projection", "decentralization-metrics", "version-distribution",
  "health-score-breakdown", "trend-data", "x-score", "peer-rankings",
  "superminority-info", "censorship-resistance"]

/-- The route handler, as a function of the `type` and `nodeId` query
parameters and of whether the selected data function threw
(`internalFailure = some message`).  The `commission-history` branch
throws `Error('nodeId required')` when `nodeId` is falsy, which the
surrounding `catch` converts — like every other thrown error — into a
500 response carrying `error.message || 'Internal Server Error'`. -/
def GET (ty : Option String) (nodeId : Option String)
    (internalFailure : Option String) : ApiOutcome :=
  match ty with
  | none => .clientError "Invalid type param" 400
  | some t =>
    if knownTypes.contains t then
      if t = "commission-history" ∧ orElseStr nodeId "" = "" then
        .serverError "nodeId required" 500
      else
        match internalFailure with
        | some m => .serverError (if m = "" then "Internal Server Error" else m) 500
        | none => .ok t
    else .clientError "Invalid type param" 400

end Route


/-! ## Claim-level definitions: statement vocabulary and concrete inputs -/

/-- The deterministic fallback generator's combined output for one
identity and ordinal index: hash, synthesized location/datacenter/ASN,
synthesized IPv4. -/
def deriveFallback (identity : String) (index : ℕ) : ℕ × LocInfo × String :=
  (Utils.hashPubkey identity, Utils.getNodeLocation identity index,
   Utils.generateDeterministicIP identity)

/-- Two-sided clamp to [0, 100]. -/
def clampScore (x : ℚ) : ℚ := min 100 (max 0 x)

/-- Written from the spec's words for comparison with the source's
`calculateXScore`: every sub-score "independently clamped to [0,100]
before blending", same weights and grade mapping. -/
def calculateXScoreSpecClamped (node : PNode) : PnodeApi.XScore :=
  let storageThroughput := clampScore
    ((node.metrics.storageUsedGB / node.metrics.storageCapacityGB * 100) * 1.5)
  let dataAvailabilityLatency := clampScore (100 - node.metrics.responseTimeMs * 0.5)
  let uptime := clampScore node.uptime
  let gossipHealth := clampScore (node.gossip.peersConnected * 2)
  let peerConnectivity := clampScore (node.gossip.peersConnected * 3)
  let overall := storageThroughput * 0.25 + dataAvailabilityLatency * 0.25
    + uptime * 0.20 + gossipHealth * 0.15 + peerConnectivity * 0.15
  { overall := overall
    storageThroughput := storageThroughput
    dataAvailabilityLatency := dataAvailabilityLatency
    uptime := uptime
    gossipHealth := gossipHealth
    peerConnectivity := peerConnectivity
    grade := PnodeApi.getXScoreGrade overall }

/-- The credit balance `n.credits || 0` that every sort and accumulation
in the pipeline keys on. -/
def creditKey (n : PNode) : ℤ := n.credits.getD 0

/-- Total network credits of a node set. -/
def totalCreditsOf (nodes : List PNode) : ℤ := (nodes.map creditKey).sum

/-- The superminority entry the accumulation loop builds for one node. -/
def superEntry (totalCredits : ℤ) (n : PNode) : PnodeApi.SuperminorityEntry :=
  ⟨n.pubkey, creditKey n,
    if 0 < totalCredits then ((creditKey n : ℚ) / (totalCredits : ℚ)) * 100 else 0⟩

/-- Credit sum of a node list, as the rational the loop accumulates. -/
def creditSumQ (l : List PNode) : ℚ := (((l.map creditKey).sum : ℤ) : ℚ)

/-- The spec's rank/credit alignment property: credit balance is
non-increasing as `creditsRank` increases. -/
def RankCreditAligned (nodes : List PNode) : Prop :=
  ∀ a ∈ nodes, ∀ b ∈ nodes,
    a.creditsRank.getD 0 ≤ b.creditsRank.getD 0 →
    creditKey b ≤ creditKey a

instance (nodes : List PNode) : Decidable (RankCreditAligned nodes) := by
  unfold RankCreditAligned
  infer_instance

/-- The superminority scenario ledger: ten pods with credits
[500,400,300,200,100,50,50,50,25,25]. -/
def tenPods : PodCreditsResponse :=
  ⟨[⟨500, "node1"⟩, ⟨400, "node2"⟩, ⟨300, "node3"⟩, ⟨200, "node4"⟩,
    ⟨100, "node5"⟩, ⟨50, "node6"⟩, ⟨50, "node7"⟩, ⟨50, "node8"⟩,
    ⟨25, "node9"⟩, ⟨25, "node10"⟩]⟩

def tenNodes : List PNode := PnodeApi.getClusterNodes (some tenPods) none 0

/-- The full-success scenario ledger: credits A:9000, B:100, C:0. -/
def abcPods : PodCreditsResponse := ⟨[⟨9000, "A"⟩, ⟨100, "B"⟩, ⟨0, "C"⟩]⟩

def abcNodes : List PNode := PnodeApi.getClusterNodes (some abcPods) none 0

/-- Two RPC pods whose raw order is the reverse of their credit order. -/
def podX : ServerApi.RpcPod :=
  ⟨some "X", some "1.2.3.4:6000", some 6000, some "0.7.0", some 1000,
   some 99, none, none⟩

def podY : ServerApi.RpcPod :=
  ⟨some "Y", some "5.6.7.8:6000", some 6000, some "0.7.0", some 1000,
   some 99, none, none⟩

/-- Ledger giving X fewer credits (10) than Y (20). -/
def pairCredits : PodCreditsResponse := ⟨[⟨10, "X"⟩, ⟨20, "Y"⟩]⟩

/-- The merged output for the X/Y pair: sorted by credits descending, but
`creditsRank` still carries the pre-sort RPC positions. -/
def pairOut : List PNode :=
  ServerApi.fetchFromRpcAndCache [podX, podY] (some pairCredits) [] 0

/-- A ledger whose only identity, Z, appears in no RPC pod. -/
def zOnlyCredits : PodCreditsResponse := ⟨[⟨5, "Z"⟩]⟩

/-- A syntactically well-formed node whose `uptime` field exceeds 100
(e.g. an uptime-in-seconds figure read back from the store). -/
def overUptimeNode : PNode :=
  { id := "n", pubkey := "P", ip := "1.2.3.4", port := 6000, version := "0.7.0",
    status := .online, uptime := 150, lastSeen := 0,
    location := ⟨"United States", "US", "New York", 0, 0, "Vultr", "AS20473"⟩,
    credits := some 0, creditsRank := some 1,
    metrics := ⟨20, 40, 100, 1000, 40⟩, performance := ⟨0, .poor⟩,
    gossip := ⟨10, 0, 0⟩, staking := ⟨0, 0, 0, 0, 0, 0⟩ }

/-- The same node with its fields in the nominal ranges. -/
def inRangeNode : PNode :=
  { overUptimeNode with uptime := 90 }

/-- A cache row last updated at epoch 0. -/
def row0 : ServerApi.Row :=
  { pubkey := "X", ip := "1.2.3.4", port := 6000, version := "0.7.0",
    status := .online, uptime := 90, last_seen := 0,
    location := ⟨"United States", "US", "New York", 0, 0, "Vultr", "AS20473"⟩,
    metrics := ⟨20, 40, 100, 1000, 40⟩, performance := ⟨50, .fair⟩,
    credits := some 10, credits_rank := some 1,
    gossip := ⟨10, 0, 0⟩, staking := ⟨0, 0, 0, 0, 0, 0⟩, updated_at := 0 }

/-! ## Helper lemmas -/

theorem get?_isSome_of_lt : ∀ (l : List α) (n : ℕ), n < l.length →
    (l.get? n).isSome = true := by
  intro l
  induction l with
  | nil => intro n h; simp at h
  | cons a as ih =>
    intro n h
    cases n with
    | zero => simp
    | succ m =>
      simp only [List.get?]
      exact ih m (by simpa using h)


theorem tableGet?_eq_some_of_lt (l : List α) (d : α) (n : ℕ)
    (h : n < l.length) : tableGet? l n = some (tableGet l d n) := by
  have hs := get?_isSome_of_lt l n h
  unfold tableGet? tableGet
  cases hv : l.get? n with
  | none => rw [hv] at hs; simp at hs
  | some a => simp


theorem insertDesc_perm (key : α → ℤ) (x : α) :
    ∀ l : List α, (insertDesc key x l).Perm (x :: l) := by
  intro l
  induction l with
  | nil => simp [insertDesc]
  | cons y ys ih =>
    by_cases h : key x < key y
    · simp only [insertDesc, if_pos h]
      exact (ih.cons y).trans (List.Perm.swap x y ys)
    · simp [insertDesc, if_neg h]


theorem sortByDesc_perm (key : α → ℤ) :
    ∀ l : List α, (sortByDesc key l).Perm l := by
  intro l
  induction l with
  | nil => simp [sortByDesc]
  | cons x xs ih =>
    exact (insertDesc_perm key x _).trans (ih.cons x)


theorem mem_insertDesc (key : α → ℤ) (x a : α) (l : List α) :
    a ∈ insertDesc key x l ↔ a = x ∨ a ∈ l := by
  have := (insertDesc_perm key x l).mem_iff (a := a)
  simpa using this


theorem insertDesc_sorted (key : α → ℤ) (x : α) :
    ∀ l : List α, SortedDesc key l → SortedDesc key (insertDesc key x l) := by
  intro l
  induction l with
  | nil => intro _; simp [insertDesc, SortedDesc]
  | cons y ys ih =>
    intro h
    rw [SortedDesc, List.pairwise_cons] at h
    obtain ⟨hy, hys⟩ := h
    by_cases hc : key x < key y
    · simp only [insertDesc, if_pos hc]
      rw [SortedDesc, List.pairwise_cons]
      constructor
      · intro b hb
        rcases (mem_insertDesc key x b ys).mp hb with hb | hb
        · subst hb; exact le_of_lt hc
        · exact hy b hb
      · exact ih hys
    · simp only [insertDesc, if_neg hc]
      rw [SortedDesc, List.pairwise_cons]
      push_neg at hc
      constructor
      · intro b hb
        rcases List.mem_cons.mp hb with hb | hb
        · subst hb; exact hc
        · exact le_trans (hy b hb) hc
      · exact List.pairwise_cons.mpr ⟨hy, hys⟩


theorem sortByDesc_sorted (key : α → ℤ) :
    ∀ l : List α, SortedDesc key (sortByDesc key l) := by
  intro l
  induction l with
  | nil => simp [sortByDesc, SortedDesc]
  | cons x xs ih => exact insertDesc_sorted key x _ ih


theorem mapIdxFrom_map (f : ℕ → α → β) (g : β → γ) (f' : ℕ → α → γ)
    (hfg : ∀ i a, g (f i a) = f' i a) :
    ∀ (i : ℕ) (l : List α), (mapIdxFrom f i l).map g = mapIdxFrom f' i l := by
  intro i l
  induction l generalizing i with
  | nil => simp [mapIdxFrom]
  | cons a as ih => simp [mapIdxFrom, hfg, ih]


theorem mapIdxFrom_length (f : ℕ → α → β) :
    ∀ (i : ℕ) (l : List α), (mapIdxFrom f i l).length = l.length := by
  intro i l
  induction l generalizing i with
  | nil => simp [mapIdxFrom]
  | cons a as ih => simp [mapIdxFrom, ih]


theorem mem_mapIdxFrom (f : ℕ → α → β) (b : β) :
    ∀ (i : ℕ) (l : List α), b ∈ mapIdxFrom f i l → ∃ j a, a ∈ l ∧ b = f j a := by
  intro i l
  induction l generalizing i with
  | nil => intro h; simp [mapIdxFrom] at h
  | cons x xs ih =>
    intro h
    rw [mapIdxFrom] at h
    rcases List.mem_cons.mp h with h | h
    · exact ⟨i, x, by simp, h⟩
    · obtain ⟨j, c, hc, hbc⟩ := ih _ h
      exact ⟨j, c, by simp [hc], hbc⟩


theorem mapIdxFrom_pairwise (f : ℕ → α → β)
    (R : α → α → Prop) (S : β → β → Prop)
    (hf : ∀ i j a b, R a b → S (f i a) (f j b)) :
    ∀ (i : ℕ) (l : List α), l.Pairwise R → (mapIdxFrom f i l).Pairwise S := by
  intro i l
  induction l generalizing i with
  | nil => intro _; simp [mapIdxFrom]
  | cons a as ih =>
    intro h
    rw [List.pairwise_cons] at h
    obtain ⟨ha, has⟩ := h
    rw [mapIdxFrom, List.pairwise_cons]
    constructor
    · intro b hb
      obtain ⟨j, c, hc, hbc⟩ := mem_mapIdxFrom f b _ _ hb
      subst hbc
      exact hf _ _ _ _ (ha c hc)
    · exact ih _ has


theorem optionTraverse_mapIdxFrom (f : ℕ → α → Option β) (g : ℕ → α → β) :
    ∀ l : List α, (∀ a ∈ l, ∀ i, f i a = some (g i a)) →
    ∀ i, optionTraverse (mapIdxFrom f i l) = some (mapIdxFrom g i l) := by
  intro l
  induction l with
  | nil => intro _ i; simp [mapIdxFrom, optionTraverse]
  | cons a as ih =>
    intro h i
    have ha := h a (by simp) i
    rw [mapIdxFrom, mapIdxFrom, ha, optionTraverse,
      ih (fun b hb => h b (by simp [hb]))]
    rfl


theorem mapIdxFrom_succ_range :
    ∀ (i : ℕ) (l : List α),
      mapIdxFrom (fun j (_ : α) => some (j + 1)) i l =
        (List.range' (i + 1) l.length).map some := by
  intro i l
  induction l generalizing i with
  | nil => simp [mapIdxFrom]
  | cons a as ih => simp [mapIdxFrom, List.range', ih]

theorem transformPodToNode_creditsRank (pod : Pod) (i totalN : ℕ) (now : ℤ) :
    (PnodeApi.transformPodToNode pod i totalN now).creditsRank = some (i + 1) := rfl

theorem transformPodToNode_credits (pod : Pod) (i totalN : ℕ) (now : ℤ) :
    (PnodeApi.transformPodToNode pod i totalN now).credits = some pod.credits := rfl

theorem mapRpcNodeToPNodeCore_creditsRank (p : ServerApi.RpcPod)
    (cd : Option ServerApi.CreditData) (i : ℕ)
    (geo : Option ServerApi.GeolocationData) (now : ℤ) :
    (ServerApi.mapRpcNodeToPNodeCore p cd i geo now).creditsRank = some (i + 1) := rfl

theorem mapRpcNodeToPNodeCore_pubkey (p : ServerApi.RpcPod)
    (cd : Option ServerApi.CreditData) (i : ℕ)
    (geo : Option ServerApi.GeolocationData) (now : ℤ) :
    (ServerApi.mapRpcNodeToPNodeCore p cd i geo now).pubkey =
      orElseStr p.pubkey ("unknown-" ++ toString i) := rfl

theorem mapRpcNodeToPNode_eq_core (p : ServerApi.RpcPod)
    (cd : Option ServerApi.CreditData) (i : ℕ)
    (geo : Option ServerApi.GeolocationData) (now : ℤ)
    (h : p.last_seen_timestamp.isSome = true) :
    ServerApi.mapRpcNodeToPNode p cd i geo now =
      some (ServerApi.mapRpcNodeToPNodeCore p cd i geo now) := by
  unfold ServerApi.mapRpcNodeToPNode
  cases hv : p.last_seen_timestamp with
  | none => rw [hv] at h; simp at h
  | some t => simp

theorem fetchFromRpcAndCache_eq_sorted (rpcPods : List ServerApi.RpcPod)
    (pc : Option PodCreditsResponse)
    (geo : List (String × ServerApi.GeolocationData)) (now : ℤ)
    (h : ∀ p ∈ rpcPods, p.last_seen_timestamp.isSome = true) :
    ServerApi.fetchFromRpcAndCache rpcPods pc geo now =
      sortByDesc (fun n => n.credits.getD 0)
        (mapIdxFrom (fun i p => ServerApi.mapRpcNodeToPNodeCore p
            (some ⟨ServerApi.creditsForPod (ServerApi.ledgerOf pc) p⟩) i
            (ServerApi.geoForPod geo p) now) 0 rpcPods) := by
  have htr := optionTraverse_mapIdxFrom
    (fun i p => ServerApi.mapRpcNodeToPNode p
      (some ⟨ServerApi.creditsForPod (ServerApi.ledgerOf pc) p⟩) i
      (ServerApi.geoForPod geo p) now)
    (fun i p => ServerApi.mapRpcNodeToPNodeCore p
      (some ⟨ServerApi.creditsForPod (ServerApi.ledgerOf pc) p⟩) i
      (ServerApi.geoForPod geo p) now)
    rpcPods
    (fun p hp i => mapRpcNodeToPNode_eq_core p _ i _ now (h p hp)) 0
  simp only [ServerApi.fetchFromRpcAndCache]
  rw [htr]

theorem getClusterNodes_pods_path (pc : PodCreditsResponse)
    (cd : Option (List PnodeApi.ClusterEntry)) (now : ℤ)
    (h : 0 < pc.pods_credits.length) :
    PnodeApi.getClusterNodes (some pc) cd now =
      mapIdxFrom (fun i pod => PnodeApi.transformPodToNode pod i
          (sortByDesc (fun p => p.credits) pc.pods_credits).length now) 0
        (sortByDesc (fun p => p.credits) pc.pods_credits) := by
  simp only [PnodeApi.getClusterNodes]
  rw [if_pos h]

/-! ## Claim theorems -/

/-- C7: the deterministic fallback generator (hashPubkey, getNodeLocation,
generateDeterministicIP) is a pure function of the identity string and the
ordinal index: equal inputs give identical outputs.  The embedding is
state-free because the source functions read only immutable module
constants — no clock, randomness or mutable module state. -/
theorem claim7_fallback_deterministic :
    ∀ (id1 id2 : String) (i1 i2 : ℕ), id1 = id2 → i1 = i2 →
      deriveFallback id1 i1 = deriveFallback id2 i2 := by
  intro id1 id2 i1 i2 h1 h2
  rw [h1, h2]

theorem claim7_fallback_deterministic_witness :
    deriveFallback "ABC" 3 = deriveFallback "ABC" 3 :=
  claim7_fallback_deterministic "ABC" "ABC" 3 3 rfl rfl

/-- C8: when every adapter returns empty or `null`, the merge returns the
empty array, and the derived metrics over the empty snapshot are
well-defined: `networkHealth = 0` (the division is guarded, no NaN), the
three distributions are empty and the Nakamoto coefficient is `0`. -/
theorem claim8_empty_everything :
    ∀ now nowStats : ℤ,
      PnodeApi.getClusterNodes none none now = [] ∧
      PnodeApi.getClusterNodes (some ⟨[]⟩) none now = [] ∧
      PnodeApi.getClusterNodes none (some []) now = [] ∧
      (PnodeApi.getNetworkStats [] nowStats).networkHealth = 0 ∧
      (PnodeApi.getNetworkStats [] nowStats).averageUptime = 0 ∧
      (PnodeApi.getNetworkStats [] nowStats).averageResponseTime = 0 ∧
      (PnodeApi.getDecentralizationMetrics []).countryDistribution = [] ∧
      (PnodeApi.getDecentralizationMetrics []).datacenterDistribution = [] ∧
      (PnodeApi.getDecentralizationMetrics []).asnDistribution = [] ∧
      (PnodeApi.getDecentralizationMetrics []).nakamotoCoefficient = 0 := by
  intro now nowStats
  exact ⟨rfl, rfl, rfl, rfl, rfl, rfl, rfl, rfl, rfl, rfl⟩

/-- C10: `hashPubkey` is a non-negative integer for every identity, all
three modulo table lookups of `getNodeLocation` are in bounds (the
JS-semantics partial lookup always returns a defined entry), and the
synthesized IPv4 address has first octet in [50, 249] and remaining
octets in [0, 255]; all functions are total. -/
theorem claim10_fallback_safety :
    ∀ (pubkey : String) (index : ℕ),
      Utils.getNodeLocationJS pubkey index =
        some (Utils.getNodeLocation pubkey index) ∧
      0 ≤ (Utils.hashPubkey pubkey : ℤ) ∧
      50 ≤ (Utils.ipOctets pubkey).1 ∧ (Utils.ipOctets pubkey).1 ≤ 249 ∧
      (Utils.ipOctets pubkey).2.1 ≤ 255 ∧
      (Utils.ipOctets pubkey).2.2.1 ≤ 255 ∧
      (Utils.ipOctets pubkey).2.2.2 ≤ 255 ∧
      Utils.generateDeterministicIP pubkey =
        toString (Utils.ipOctets pubkey).1 ++ "." ++
        toString (Utils.ipOctets pubkey).2.1 ++ "." ++
        toString (Utils.ipOctets pubkey).2.2.1 ++ "." ++
        toString (Utils.ipOctets pubkey).2.2.2 := by
  intro pubkey index
  have hm1 : (Utils.hashPubkey pubkey + index) % Utils.NODE_LOCATIONS.length <
      Utils.NODE_LOCATIONS.length := Nat.mod_lt _ (by decide)
  have hm2 : (Utils.hashPubkey pubkey * 7 + index) % Utils.DATACENTERS.length <
      Utils.DATACENTERS.length := Nat.mod_lt _ (by decide)
  have hm3 : (Utils.hashPubkey pubkey * 13 + index) % Utils.ASNS.length <
      Utils.ASNS.length := Nat.mod_lt _ (by decide)
  have ho1 : Utils.hashPubkey pubkey % 200 < 200 := Nat.mod_lt _ (by decide)
  have ho2 : Utils.hashPubkey pubkey * 7 % 256 < 256 := Nat.mod_lt _ (by decide)
  have ho3 : Utils.hashPubkey pubkey * 13 % 256 < 256 := Nat.mod_lt _ (by decide)
  have ho4 : Utils.hashPubkey pubkey * 19 % 256 < 256 := Nat.mod_lt _ (by decide)
  refine ⟨?_, ?_, ?_, ?_, ?_, ?_, ?_, rfl⟩
  · simp only [Utils.getNodeLocationJS, Utils.getNodeLocation]
    rw [tableGet?_eq_some_of_lt Utils.NODE_LOCATIONS ⟨"", "", "", 0, 0⟩ _ hm1,
      tableGet?_eq_some_of_lt Utils.DATACENTERS "" _ hm2,
      tableGet?_eq_some_of_lt Utils.ASNS ⟨"", ""⟩ _ hm3]
  · exact_mod_cast Nat.zero_le _
  · simp only [Utils.ipOctets]
    omega
  · simp only [Utils.ipOctets]
    omega
  · simp only [Utils.ipOctets]
    omega
  · simp only [Utils.ipOctets]
    omega
  · simp only [Utils.ipOctets]
    omega

/-- C3: the staleness gate.  With a non-empty cached snapshot, an age
strictly below the 5-minute threshold (in particular threshold − 1 ms)
serves the stored rows without refreshing, and an age strictly above it
(in particular threshold + 1 ms) triggers the full refresh — the value of
`fetchFromRpcAndCache` (adapter fetches, merge, persist, return). -/
theorem claim3_staleness_gate (r : ServerApi.Row) (rest : List ServerApi.Row)
    (now : ℤ) (rpcPods : List ServerApi.RpcPod)
    (pc : Option PodCreditsResponse)
    (geo : List (String × ServerApi.GeolocationData)) :
    (now - r.updated_at < 5 * 60 * 1000 →
      ServerApi.getClusterNodes (r :: rest) now
          (ServerApi.fetchFromRpcAndCache rpcPods pc geo now) =
        .servedCache ((r :: rest).map ServerApi.mapRowToPNode)) ∧
    (5 * 60 * 1000 < now - r.updated_at →
      ServerApi.getClusterNodes (r :: rest) now
          (ServerApi.fetchFromRpcAndCache rpcPods pc geo now) =
        .refreshed (ServerApi.fetchFromRpcAndCache rpcPods pc geo now)) := by
  constructor
  · intro h
    have hn : ¬ (5 * 60 * 1000 < now - r.updated_at) := by omega
    simp [ServerApi.getClusterNodes, hn]
    omega
  · intro h
    simp [ServerApi.getClusterNodes, h]
    omega

theorem claim3_staleness_gate_witness :
    ServerApi.getClusterNodes [row0] 299999
        (ServerApi.fetchFromRpcAndCache [] none [] 299999) =
      .servedCache ([row0].map ServerApi.mapRowToPNode) ∧
    ServerApi.getClusterNodes [row0] 300001
        (ServerApi.fetchFromRpcAndCache [] none [] 300001) =
      .refreshed (ServerApi.fetchFromRpcAndCache [] none [] 300001) :=
  ⟨(claim3_staleness_gate row0 [] 299999 [] none []).1 (by decide),
   (claim3_staleness_gate row0 [] 300001 [] none []).2 (by decide)⟩

/-- C5 (counterexample): in the `part_002` merge path, a credit-ledger
node with credits 100 — nonzero, at or below the calibration threshold —
gets status `online`, not the `degraded` the claim requires: that variant
has no credit-heuristic `degraded` outcome at all. -/
theorem claim5_counterexample :
    (Svc.transformPodToFull ⟨100, "B"⟩ 1 none 0).status = Status.online ∧
    Status.online ≠ Status.degraded := by
  exact ⟨rfl, by decide⟩

/-- C5 (amended): in `lib/pnode-api.ts` `transformPodToNode` the credit
heuristic is exactly as claimed — credits > 5000 online, nonzero at or
below 5000 degraded, zero offline — and the A:9000/B:100/C:0 scenario
produces [A online #1, B degraded #2, C offline #3]; in the `part_002`
variant `transformPodToFull` the rule is instead the two-state
`credits > 0 → online, else offline`, with no degraded outcome. -/
theorem claim5_status_heuristic :
    (∀ (pod : Pod) (index totalN : ℕ) (now : ℤ),
      (PnodeApi.transformPodToNode pod index totalN now).status =
        (if 5000 < pod.credits then .online
         else if 0 < pod.credits then .degraded
         else .offline)) ∧
    (∀ (pod : Pod) (index : ℕ) (rd : Option Svc.PartialPNode) (now : ℤ),
      (Svc.transformPodToFull pod index rd now).status =
        (if 0 < pod.credits then .online else .offline)) ∧
    (abcNodes.map (fun n => (n.pubkey, n.status, n.creditsRank)) =
      [("A", .online, some 1), ("B", .degraded, some 2),
       ("C", .offline, some 3)]) := by
  refine ⟨fun pod index totalN now => rfl, fun pod index rd now => rfl, by decide⟩

/-- C1 (counterexample): `fetchFromRpcAndCache` assigns `creditsRank`
from the PRE-sort RPC position (`creditsRank: index + 1 // Approximation`)
and only then sorts by credits, so for RPC order [X (10 credits),
Y (20 credits)] the returned snapshot is [Y rank 2, X rank 1]: credit
balance is not non-increasing in `creditsRank`. -/
theorem claim1_counterexample :
    pairOut.map (fun n => (n.creditsRank, n.credits)) =
      [(some 2, some 20), (some 1, some 10)] ∧
    ¬ RankCreditAligned pairOut := by
  exact ⟨by decide, by decide⟩

/-- C1 (amended): for the lib `getClusterNodes` pod-credits path the
claim holds in full — the `creditsRank` sequence along the returned array
is exactly `1..N` and credit balance is non-increasing along it; for
`fetchFromRpcAndCache` the output array is sorted by credits descending
and the `creditsRank` values are a permutation of `1..N`, but they carry
the pre-sort RPC positions, so credit balance need not be non-increasing
as `creditsRank` increases. -/
theorem claim1_rank_invariant :
    (∀ (pc : PodCreditsResponse) (cd : Option (List PnodeApi.ClusterEntry))
        (now : ℤ), 0 < pc.pods_credits.length →
      ((PnodeApi.getClusterNodes (some pc) cd now).map (fun n => n.creditsRank) =
        (List.range' 1 pc.pods_credits.length).map some) ∧
      (PnodeApi.getClusterNodes (some pc) cd now).Pairwise
        (fun a b => creditKey b ≤ creditKey a)) ∧
    (∀ (rpcPods : List ServerApi.RpcPod) (pc : Option PodCreditsResponse)
        (geo : List (String × ServerApi.GeolocationData)) (now : ℤ),
      (∀ p ∈ rpcPods, p.last_seen_timestamp.isSome = true) →
      SortedDesc creditKey (ServerApi.fetchFromRpcAndCache rpcPods pc geo now) ∧
      ((ServerApi.fetchFromRpcAndCache rpcPods pc geo now).map
          (fun n => n.creditsRank)).Perm
        ((List.range' 1 rpcPods.length).map some)) := by
  constructor
  · intro pc cd now h
    rw [getClusterNodes_pods_path pc cd now h]
    constructor
    · have heq := (mapIdxFrom_map
        (fun i pod => PnodeApi.transformPodToNode pod i
          (sortByDesc (fun p => p.credits) pc.pods_credits).length now)
        (fun n => n.creditsRank) (fun j _ => some (j + 1)) (fun i a => rfl) 0
        (sortByDesc (fun p => p.credits) pc.pods_credits)).trans
        (mapIdxFrom_succ_range 0 (sortByDesc (fun p => p.credits) pc.pods_credits))
      rw [heq,
        (sortByDesc_perm (fun p : Pod => p.credits) pc.pods_credits).length_eq]
    · exact mapIdxFrom_pairwise
        (fun i pod => PnodeApi.transformPodToNode pod i
          (sortByDesc (fun p => p.credits) pc.pods_credits).length now)
        (fun a b : Pod => b.credits ≤ a.credits)
        (fun a b : PNode => creditKey b ≤ creditKey a)
        (fun i j a b hab => hab) 0
        (sortByDesc (fun p => p.credits) pc.pods_credits)
        (sortByDesc_sorted (fun p : Pod => p.credits) pc.pods_credits)
  · intro rpcPods pc geo now h
    rw [fetchFromRpcAndCache_eq_sorted rpcPods pc geo now h]
    constructor
    · exact sortByDesc_sorted (fun n : PNode => n.credits.getD 0) _
    · have hperm := (sortByDesc_perm (fun n : PNode => n.credits.getD 0)
        (mapIdxFrom (fun i p => ServerApi.mapRpcNodeToPNodeCore p
          (some ⟨ServerApi.creditsForPod (ServerApi.ledgerOf pc) p⟩) i
          (ServerApi.geoForPod geo p) now) 0 rpcPods)).map
        (fun n : PNode => n.creditsRank)
      have heq := (mapIdxFrom_map
        (fun i p => ServerApi.mapRpcNodeToPNodeCore p
          (some ⟨ServerApi.creditsForPod (ServerApi.ledgerOf pc) p⟩) i
          (ServerApi.geoForPod geo p) now)
        (fun n => n.creditsRank) (fun j _ => some (j + 1)) (fun i a => rfl) 0
        rpcPods).trans (mapIdxFrom_succ_range 0 rpcPods)
      rw [heq] at hperm
      exact hperm

theorem claim1_rank_invariant_witness :
    ((PnodeApi.getClusterNodes (some abcPods) none 0).map
        (fun n => n.creditsRank) =
      (List.range' 1 abcPods.pods_credits.length).map some) ∧
    SortedDesc creditKey
      (ServerApi.fetchFromRpcAndCache [podX, podY] (some pairCredits) [] 0) :=
  ⟨(claim1_rank_invariant.1 abcPods none 0 (by decide)).1,
   (claim1_rank_invariant.2 [podX, podY] (some pairCredits) [] 0 (by decide)).1⟩

/-- C2 (counterexample): identity Z appears in the credits ledger but in
no RPC pod; `fetchFromRpcAndCache` builds nodes only from RPC pods, so Z
is silently dropped from the merged output (here: empty output). -/
theorem claim2_counterexample :
    ServerApi.fetchFromRpcAndCache [] (some zOnlyCredits) [] 0 = [] ∧
    "Z" ∈ zOnlyCredits.pods_credits.map (fun p => p.pod_id) ∧
    "Z" ∉ (ServerApi.fetchFromRpcAndCache [] (some zOnlyCredits) [] 0).map
      (fun n => n.pubkey) := by
  exact ⟨by decide, by decide, by decide⟩

/-- C2 (amended): the multiset of identities in the merged output of
`fetchFromRpcAndCache` equals the multiset of (resolved) RPC pod
identities: every RPC pod contributes exactly one output node (duplicate
pod identities appear once per occurrence), and identities present only
in the credits ledger contribute nothing. -/
theorem claim2_merge_completeness (rpcPods : List ServerApi.RpcPod)
    (pc : Option PodCreditsResponse)
    (geo : List (String × ServerApi.GeolocationData)) (now : ℤ)
    (h : ∀ p ∈ rpcPods, p.last_seen_timestamp.isSome = true) :
    ((ServerApi.fetchFromRpcAndCache rpcPods pc geo now).map
        (fun n => n.pubkey)).Perm
      (mapIdxFrom (fun i p => orElseStr p.pubkey ("unknown-" ++ toString i))
        0 rpcPods) := by
  rw [fetchFromRpcAndCache_eq_sorted rpcPods pc geo now h]
  have hperm := (sortByDesc_perm (fun n : PNode => n.credits.getD 0)
    (mapIdxFrom (fun i p => ServerApi.mapRpcNodeToPNodeCore p
      (some ⟨ServerApi.creditsForPod (ServerApi.ledgerOf pc) p⟩) i
      (ServerApi.geoForPod geo p) now) 0 rpcPods)).map
    (fun n : PNode => n.pubkey)
  have heq := mapIdxFrom_map
    (fun i p => ServerApi.mapRpcNodeToPNodeCore p
      (some ⟨ServerApi.creditsForPod (ServerApi.ledgerOf pc) p⟩) i
      (ServerApi.geoForPod geo p) now)
    (fun n => n.pubkey)
    (fun i p => orElseStr p.pubkey ("unknown-" ++ toString i))
    (fun i a => rfl) 0 rpcPods
  rw [heq] at hperm
  exact hperm

theorem claim2_merge_completeness_witness :
    ((ServerApi.fetchFromRpcAndCache [podX, podY] (some pairCredits) [] 0).map
        (fun n => n.pubkey)).Perm
      (mapIdxFrom (fun i p => orElseStr p.pubkey ("unknown-" ++ toString i))
        0 [podX, podY]) :=
  claim2_merge_completeness [podX, podY] (some pairCredits) [] 0 (by decide)

theorem creditSumQ_nil : creditSumQ [] = 0 := by simp [creditSumQ]

theorem creditSumQ_cons (n : PNode) (t : List PNode) :
    creditSumQ (n :: t) = ((creditKey n : ℤ) : ℚ) + creditSumQ t := by
  simp [creditSumQ]

/-- Characterization of the superminority loop: it returns the entries of
a prefix of the sorted list; every proper sub-prefix has accumulated sum
below the threshold, and if the loop stopped before exhausting the list
the accumulated sum of its prefix has reached the threshold. -/
theorem superAccum_spec (total : ℤ) (thr : ℚ) :
    ∀ (l : List PNode) (s : ℚ),
      ∃ k, k ≤ l.length ∧
        PnodeApi.superAccum total thr s l = (l.take k).map (superEntry total) ∧
        (∀ j, j < k → s + creditSumQ (l.take j) < thr) ∧
        (k < l.length → thr ≤ s + creditSumQ (l.take k)) := by
  intro l
  induction l with
  | nil =>
    intro s
    exact ⟨0, Nat.le_refl 0, rfl,
      fun j hj => absurd hj (Nat.not_lt_zero j),
      fun h => absurd h (lt_irrefl 0)⟩
  | cons n rest ih =>
    intro s
    by_cases hc : thr ≤ s
    · refine ⟨0, Nat.zero_le _, ?_, ?_, ?_⟩
      · simp [PnodeApi.superAccum, hc]
      · intro j hj; exact absurd hj (Nat.not_lt_zero j)
      · intro _
        simpa [creditSumQ_nil] using hc
    · obtain ⟨k', hk'le, hk'eq, hmin, hstop⟩ :=
        ih (s + ((creditKey n : ℤ) : ℚ))
      refine ⟨k' + 1, ?_, ?_, ?_, ?_⟩
      · simpa using Nat.succ_le_succ hk'le
      · have hstep : PnodeApi.superAccum total thr s (n :: rest) =
            superEntry total n ::
              PnodeApi.superAccum total thr (s + ((creditKey n : ℤ) : ℚ)) rest := by
          simp [PnodeApi.superAccum, hc, superEntry, creditKey]
        rw [hstep, hk'eq, List.take_succ_cons, List.map_cons]
      · intro j hj
        cases j with
        | zero =>
          simp only [List.take_zero, creditSumQ_nil, add_zero]
          exact lt_of_not_le hc
        | succ j' =>
          have hj' : j' < k' := Nat.lt_of_succ_lt_succ hj
          have h1 := hmin j' hj'
          rw [List.take_succ_cons, creditSumQ_cons]
          linarith
      · intro hlt
        have hk'lt : k' < rest.length := by
          simp only [List.length_cons] at hlt
          omega
        have h1 := hstop hk'lt
        rw [List.take_succ_cons, creditSumQ_cons]
        linarith

/-- C4: `getSuperminorityInfo` sorts all nodes descending by credits and
accumulates exactly the minimal prefix whose cumulative credits reach 33%
of the total (every proper sub-prefix is below the threshold, and the
prefix itself has reached it whenever the loop stopped early); the risk
level is high below 5 accumulated nodes, medium below 15, low otherwise.
On the ten-node scenario [500,400,300,200,100,50,50,50,25,25] the
superminority is exactly the top two nodes with risk level high. -/
theorem claim4_superminority :
    (∀ nodes : List PNode,
      ∃ k, (PnodeApi.getSuperminorityInfo nodes).count = k ∧
        k ≤ nodes.length ∧
        (PnodeApi.getSuperminorityInfo nodes).nodes =
          ((sortByDesc (fun n : PNode => n.credits.getD 0) nodes).take k).map
            (superEntry (totalCreditsOf nodes)) ∧
        (∀ j, j < k →
          creditSumQ ((sortByDesc (fun n : PNode => n.credits.getD 0) nodes).take j) <
            (totalCreditsOf nodes : ℚ) * 0.33) ∧
        (k < nodes.length →
          (totalCreditsOf nodes : ℚ) * 0.33 ≤
            creditSumQ ((sortByDesc (fun n : PNode => n.credits.getD 0) nodes).take k)) ∧
        (PnodeApi.getSuperminorityInfo nodes).riskLevel =
          (if k < 5 then .high else if k < 15 then .medium else .low)) ∧
    ((PnodeApi.getSuperminorityInfo tenNodes).count = 2 ∧
     (PnodeApi.getSuperminorityInfo tenNodes).riskLevel = .high ∧
     (PnodeApi.getSuperminorityInfo tenNodes).nodes.map (fun e => e.pubkey) =
       ["node1", "node2"]) := by
  constructor
  · intro nodes
    obtain ⟨k, hkle, hkeq, hmin, hstop⟩ :=
      superAccum_spec (totalCreditsOf nodes) ((totalCreditsOf nodes : ℚ) * 0.33)
        (sortByDesc (fun n : PNode => n.credits.getD 0) nodes) 0
    have hlen := (sortByDesc_perm (fun n : PNode => n.credits.getD 0) nodes).length_eq
    have hcount : (PnodeApi.getSuperminorityInfo nodes).count = k := by
      show (PnodeApi.superAccum (totalCreditsOf nodes)
          ((totalCreditsOf nodes : ℚ) * 0.33) 0
          (sortByDesc (fun n : PNode => n.credits.getD 0) nodes)).length = k
      rw [hkeq, List.length_map, List.length_take]
      exact Nat.min_eq_left hkle
    refine ⟨k, hcount, by omega, hkeq, ?_, ?_, ?_⟩
    · intro j hj
      have := hmin j hj
      simpa using this
    · intro hlt
      have := hstop (by omega)
      simpa using this
    · have hrisk : (PnodeApi.getSuperminorityInfo nodes).riskLevel =
          (if (PnodeApi.getSuperminorityInfo nodes).count < 5 then RiskLevel.high
           else if (PnodeApi.getSuperminorityInfo nodes).count < 15 then
             RiskLevel.medium
           else RiskLevel.low) := rfl
      rw [hrisk, hcount]
  · refine ⟨?_, ?_, ?_⟩ <;>
      norm_num [tenNodes, tenPods, PnodeApi.getSuperminorityInfo,
        PnodeApi.getClusterNodes, sortByDesc, insertDesc, mapIdxFrom,
        PnodeApi.superAccum, PnodeApi.transformPodToNode,
        Utils.calculatePerformanceFromCredits, Utils.MAX_CREDITS, Utils.getTier]

theorem claim4_superminority_witness :
    (creditSumQ ((sortByDesc (fun n : PNode => n.credits.getD 0) tenNodes).take 0) <
      (totalCreditsOf tenNodes : ℚ) * 0.33) ∧
    ((totalCreditsOf tenNodes : ℚ) * 0.33 ≤
      creditSumQ ((sortByDesc (fun n : PNode => n.credits.getD 0) tenNodes).take 2)) := by
  obtain ⟨k, hc, hle, heq, hmin, hstop, hrisk⟩ := claim4_superminority.1 tenNodes
  have hk : k = 2 := by rw [← hc]; exact claim4_superminority.2.1
  subst hk
  constructor
  · exact hmin 0 (by omega)
  · exact hstop (by decide)

/-- Characterization of the X-Score grade thresholds. -/
theorem getXScoreGrade_iff (s : ℚ) :
    (PnodeApi.getXScoreGrade s = .S ↔ 95 ≤ s) ∧
    (PnodeApi.getXScoreGrade s = .A ↔ 85 ≤ s ∧ s < 95) ∧
    (PnodeApi.getXScoreGrade s = .B ↔ 70 ≤ s ∧ s < 85) ∧
    (PnodeApi.getXScoreGrade s = .C ↔ 55 ≤ s ∧ s < 70) ∧
    (PnodeApi.getXScoreGrade s = .D ↔ 40 ≤ s ∧ s < 55) ∧
    (PnodeApi.getXScoreGrade s = .F ↔ s < 40) := by
  unfold PnodeApi.getXScoreGrade
  split_ifs with h1 h2 h3 h4 h5 <;>
    refine ⟨?_, ?_, ?_, ?_, ?_, ?_⟩ <;> constructor <;> intro hx <;>
      first
      | rfl
      | assumption
      | linarith
      | (constructor <;> linarith)
      | (exact absurd hx (by decide))

/-- C6 (counterexample): `calculateXScore` does not clamp the uptime
sub-score at all — a node with `uptime = 150` contributes 150 to the
blend (outside [0,100]), and the resulting grade (C) differs from the
grade the spec's clamped formula would give (D). -/
theorem claim6_counterexample :
    (PnodeApi.calculateXScore overUptimeNode).uptime = 150 ∧
    ¬ ((PnodeApi.calculateXScore overUptimeNode).uptime ≤ 100) ∧
    (PnodeApi.calculateXScore overUptimeNode).grade = .C ∧
    (calculateXScoreSpecClamped overUptimeNode).grade = .D := by
  refine ⟨rfl, by norm_num [PnodeApi.calculateXScore, overUptimeNode], ?_, ?_⟩
  · norm_num [PnodeApi.calculateXScore, PnodeApi.getXScoreGrade,
      overUptimeNode, min_def, max_def]
  · norm_num [calculateXScoreSpecClamped, clampScore, PnodeApi.getXScoreGrade,
      overUptimeNode, min_def, max_def]

/-- C6 (amended): in `calculateXScore`, storageThroughput, gossipHealth
and peerConnectivity are clamped from above only (`min(100, ·)`), the
latency sub-score from below only (`max(0, ·)`), and uptime is used
unclamped; the blend uses weights 0.25/0.25/0.20/0.15/0.15 and the grade
thresholds are 95/85/70/55/40 as claimed.  When the node's raw fields lie
in their nominal ranges, all five sub-scores do lie in [0,100]. -/
theorem claim6_xscore :
    (∀ node : PNode,
      (PnodeApi.calculateXScore node).storageThroughput ≤ 100 ∧
      0 ≤ (PnodeApi.calculateXScore node).dataAvailabilityLatency ∧
      (PnodeApi.calculateXScore node).gossipHealth ≤ 100 ∧
      (PnodeApi.calculateXScore node).peerConnectivity ≤ 100 ∧
      (PnodeApi.calculateXScore node).uptime = node.uptime ∧
      (PnodeApi.calculateXScore node).overall =
        (PnodeApi.calculateXScore node).storageThroughput * 0.25 +
        (PnodeApi.calculateXScore node).dataAvailabilityLatency * 0.25 +
        (PnodeApi.calculateXScore node).uptime * 0.20 +
        (PnodeApi.calculateXScore node).gossipHealth * 0.15 +
        (PnodeApi.calculateXScore node).peerConnectivity * 0.15 ∧
      ((PnodeApi.calculateXScore node).grade = .S ↔
        95 ≤ (PnodeApi.calculateXScore node).overall) ∧
      ((PnodeApi.calculateXScore node).grade = .A ↔
        85 ≤ (PnodeApi.calculateXScore node).overall ∧
        (PnodeApi.calculateXScore node).overall < 95) ∧
      ((PnodeApi.calculateXScore node).grade = .B ↔
        70 ≤ (PnodeApi.calculateXScore node).overall ∧
        (PnodeApi.calculateXScore node).overall < 85) ∧
      ((PnodeApi.calculateXScore node).grade = .C ↔
        55 ≤ (PnodeApi.calculateXScore node).overall ∧
        (PnodeApi.calculateXScore node).overall < 70) ∧
      ((PnodeApi.calculateXScore node).grade = .D ↔
        40 ≤ (PnodeApi.calculateXScore node).overall ∧
        (PnodeApi.calculateXScore node).overall < 55) ∧
      ((PnodeApi.calculateXScore node).grade = .F ↔
        (PnodeApi.calculateXScore node).overall < 40)) ∧
    (∀ node : PNode,
      0 ≤ node.uptime → node.uptime ≤ 100 →
      0 ≤ node.metrics.responseTimeMs →
      0 ≤ node.metrics.storageUsedGB / node.metrics.storageCapacityGB →
      0 ≤ node.gossip.peersConnected →
      (0 ≤ (PnodeApi.calculateXScore node).storageThroughput ∧
       (PnodeApi.calculateXScore node).dataAvailabilityLatency ≤ 100 ∧
       0 ≤ (PnodeApi.calculateXScore node).gossipHealth ∧
       0 ≤ (PnodeApi.calculateXScore node).peerConnectivity ∧
       0 ≤ (PnodeApi.calculateXScore node).uptime ∧
       (PnodeApi.calculateXScore node).uptime ≤ 100)) := by
  constructor
  · intro node
    have hgrade : (PnodeApi.calculateXScore node).grade =
        PnodeApi.getXScoreGrade (PnodeApi.calculateXScore node).overall := rfl
    obtain ⟨g1, g2, g3, g4, g5, g6⟩ :=
      getXScoreGrade_iff (PnodeApi.calculateXScore node).overall
    refine ⟨min_le_left _ _, le_max_left _ _, min_le_left _ _, min_le_left _ _,
      rfl, rfl, ?_, ?_, ?_, ?_, ?_, ?_⟩ <;> rw [hgrade]
    · exact g1
    · exact g2
    · exact g3
    · exact g4
    · exact g5
    · exact g6
  · intro node hu0 hu100 hrt hratio hpeers
    refine ⟨?_, ?_, ?_, ?_, hu0, hu100⟩
    · exact le_min (by norm_num)
        (mul_nonneg (mul_nonneg hratio (by norm_num)) (by norm_num))
    · exact max_le (by norm_num) (by nlinarith)
    · exact le_min (by norm_num) (mul_nonneg hpeers (by norm_num))
    · exact le_min (by norm_num) (mul_nonneg hpeers (by norm_num))

theorem claim6_xscore_witness :
    ((PnodeApi.calculateXScore inRangeNode).storageThroughput ≤ 100) ∧
    (0 ≤ (PnodeApi.calculateXScore inRangeNode).storageThroughput) :=
  ⟨(claim6_xscore.1 inRangeNode).1,
   (claim6_xscore.2 inRangeNode
      (by norm_num [inRangeNode, overUptimeNode])
      (by norm_num [inRangeNode, overUptimeNode])
      (by norm_num [inRangeNode, overUptimeNode])
      (by norm_num [inRangeNode, overUptimeNode])
      (by norm_num [inRangeNode, overUptimeNode])).1⟩

/-- C9 (counterexample): a `commission-history` request with no `nodeId`
throws `Error('nodeId required')`, which the catch-all converts into a
**500** response — a server error, not the claimed client-visible
4xx-equivalent. -/
theorem claim9_counterexample :
    Route.GET (some "commission-history") none none =
      .serverError "nodeId required" 500 ∧
    Route.isClientError
      (Route.GET (some "commission-history") none none) = false := by
  exact ⟨by decide, by decide⟩

/-- C9 (amended): a missing or unknown `type` selector is the only input
producing a 4xx response (400, 'Invalid type param'); a missing/empty
`nodeId` for `commission-history` produces a **500** carrying
'nodeId required'; any other internal failure produces a 500 carrying the
thrown message, or 'Internal Server Error' when that message is empty;
otherwise the handler result is returned. -/
theorem claim9_route_errors :
    (∀ (nodeId fail : Option String),
      Route.GET none nodeId fail = .clientError "Invalid type param" 400) ∧
    (∀ (t : String) (nodeId fail : Option String),
      Route.knownTypes.contains t = false →
      Route.GET (some t) nodeId fail = .clientError "Invalid type param" 400) ∧
    (∀ (ty nodeId fail : Option String),
      Route.isClientError (Route.GET ty nodeId fail) = true →
      ty = none ∨ ∃ t, ty = some t ∧ Route.knownTypes.contains t = false) ∧
    (∀ (nodeId fail : Option String), orElseStr nodeId "" = "" →
      Route.GET (some "commission-history") nodeId fail =
        .serverError "nodeId required" 500) ∧
    (∀ (t : String) (nodeId : Option String) (m : String),
      Route.knownTypes.contains t = true →
      ¬(t = "commission-history" ∧ orElseStr nodeId "" = "") →
      Route.GET (some t) nodeId (some m) =
        .serverError (if m = "" then "Internal Server Error" else m) 500) ∧
    (∀ (t : String) (nodeId : Option String),
      Route.knownTypes.contains t = true →
      ¬(t = "commission-history" ∧ orElseStr nodeId "" = "") →
      Route.GET (some t) nodeId none = .ok t) := by
  refine ⟨fun _ _ => rfl, ?_, ?_, ?_, ?_, ?_⟩
  · intro t nid fl h
    have hm : t ∉ Route.knownTypes := by simpa using h
    simp [Route.GET, hm]
  · intro ty nid fl h
    cases ty with
    | none => exact Or.inl rfl
    | some t =>
      cases hb : Route.knownTypes.contains t with
      | false => exact Or.inr ⟨t, rfl, hb⟩
      | true =>
        exfalso
        have hm : t ∈ Route.knownTypes := by simpa using hb
        by_cases hcomm : t = "commission-history" ∧ orElseStr nid "" = ""
        · obtain ⟨ht, hnid⟩ := hcomm
          subst ht
          simp [Route.GET, hm, hnid, Route.isClientError] at h
        · cases fl with
          | none => simp [Route.GET, hm, hcomm, Route.isClientError] at h
          | some m => simp [Route.GET, hm, hcomm, Route.isClientError] at h
  · intro nid fl h
    have hm : ("commission-history" : String) ∈ Route.knownTypes := by decide
    simp [Route.GET, hm, h]
  · intro t nid m hk hcomm
    have hm : t ∈ Route.knownTypes := by simpa using hk
    simp [Route.GET, hm, hcomm]
  · intro t nid hk hcomm
    have hm : t ∈ Route.knownTypes := by simpa using hk
    simp [Route.GET, hm, hcomm]

theorem claim9_route_errors_witness :
    Route.GET (some "bogus") (some "x") none =
      .clientError "Invalid type param" 400 ∧
    Route.GET (some "commission-history") (some "") (some "boom") =
      .serverError "nodeId required" 500 ∧
    Route.GET (some "network-stats") none (some "boom") =
      .serverError "boom" 500 ∧
    Route.GET (some "network-stats") none none = .ok "network-stats" := by
  refine ⟨claim9_route_errors.2.1 "bogus" (some "x") none (by decide),
    claim9_route_errors.2.2.2.1 (some "") (some "boom") (by decide), ?_,
    claim9_route_errors.2.2.2.2.2 "network-stats" none (by decide)
      (by intro hc; exact absurd hc.1 (by decide))⟩
  have h := claim9_route_errors.2.2.2.2.1 "network-stats" none "boom"
    (by decide) (by intro hc; exact absurd hc.1 (by decide))
  rw [if_neg (by decide)] at h
  exact h
